import Mathlib

/-!
Verification of the ratekit mail search-and-retrieval pipeline.

This file gives a shallow embedding, in Lean, of the pure logic of
`src/ratekit/func/mail/` (search_filters.py, objects.py, main.py) and proves,
or refutes, the specified properties of that logic.

Modelling conventions, stated once here:

* Python strings are Lean `String`; the Python substring test `a in b` is
  `strIn`; Python `str.join` is `pyJoin`.
* `datetime` values are abstracted to `Int` timestamps; an absent / unparsable
  `Date` header is `none` (matching `EmailData.date: Optional[datetime]`).
  Comparing `none` with a timestamp models Python raising `TypeError`, so the
  built-in `sorted` is modelled by `pySorted`: a stable insertion sort in the
  `Except` monad whose comparisons can fail exactly as Python comparisons do
  (`sorted` and this model raise on the same inputs - any list of length at
  least two holding a `none` key - and agree, being stable, on all others;
  `reverse=True` is reverse / ascending-sort / reverse, as in CPython).
* The filesystem is the list of files written under the download root,
  as (email id, file name) pairs; a message's attachment directory exists
  exactly when some file with its id has been written (`dirExists`).
  `shutil.rmtree` removes every file of the directory and raises
  `FileNotFoundError` when the directory is missing (`rmtree` below);
  `EmailData.delete_files` wraps it in try/except exactly as the source does.
* A fetched message is `RawMsg`: already-decoded headers plus the list of MIME
  parts that `msg.walk()` yields.  Header decoding (`decode_header`,
  `errors='replace'`) always yields a string, so `subject`/`sender` are plain
  strings; `BeautifulSoup(...).get_text` and pandas parsing are the spec's
  external pure collaborators and are abstracted: `MsgPart.text` holds the
  part's payload as text, and `dataframes` records which attachment names
  receive a parsed table.
* The IMAP server round trips (`login`, `select`, `mail.search`, `fetch`) are
  outside the model: `search_emails_to_slow` starts from the candidate
  messages that `fetch_emails_in_date_range` returned, and returns `none` on
  the fast path (which is resolved server-side).
-/

namespace Ratekit

/-- Python substring test on lists: `listIsPre n l` is true when `n` is an
initial segment of `l`. -/
def listIsPre : List Char → List Char → Bool
  | [], _ => true
  | _ :: _, [] => false
  | a :: as, b :: bs => a == b && listIsPre as bs

/-- `listInfix n l` is true when `n` occurs contiguously inside `l`. -/
def listInfix (n : List Char) : List Char → Bool
  | [] => n.isEmpty
  | b :: bs => listIsPre n (b :: bs) || listInfix n bs

/-- The Python membership test `needle in hay` on strings. -/
def strIn (needle hay : String) : Bool := listInfix needle.data hay.data

/-- Python `sep.join(l)`. -/
def pyJoin (sep : String) : List String → String
  | [] => ""
  | [s] => s
  | s :: s2 :: rest => s ++ sep ++ pyJoin sep (s2 :: rest)

/-- Python `str(x)` for an optional header value: `str(None)` is `"None"`. -/
def pyStr : Option String → String
  | none => "None"
  | some s => s

/-- Count of a character in a string. -/
def countChar (c : Char) (s : String) : Nat := s.data.count c

/-- The decimal digit characters, for rendering numbers in dates. -/
def decDigitChars : List Char := ['0', '1', '2', '3', '4', '5', '6', '7', '8', '9']

/-- The character of one decimal digit. -/
def decDigitChar (n : Nat) : Char := decDigitChars.getD n '0'

/-- Decimal digits of a natural number, most significant first; structural on
a fuel argument (any fuel at least the digit count is exact, and the
properties proved below hold for every fuel). -/
def decDigitsAux : Nat → Nat → List Char
  | 0, _ => []
  | fuel + 1, n =>
    if n < 10 then [decDigitChar n]
    else decDigitsAux fuel (n / 10) ++ [decDigitChar (n % 10)]

/-- Decimal rendering of a natural number. -/
def decRepr (n : Nat) : String := String.mk (decDigitsAux (n + 1) n)

/-- A calendar date as `datetime.strftime` sees it. -/
structure PyDate where
  day : Nat
  month : Nat
  year : Nat
deriving DecidableEq

/-- The twelve `%b` month abbreviations. -/
def monthAbbrs : List String :=
  ["Jan", "Feb", "Mar", "Apr", "May", "Jun", "Jul", "Aug", "Sep", "Oct", "Nov", "Dec"]

/-- `%b` for a month number (1-12). -/
def monthAbbr (m : Nat) : String := monthAbbrs.getD (m - 1) ""

/-- `%d`: the day, zero-padded to two digits. -/
def pad2 (n : Nat) : String := if n < 10 then "0" ++ decRepr n else decRepr n

/-- `date.strftime("%d-%b-%Y")`, the IMAP date format used by the criteria
builders. -/
def strftimeDbY (d : PyDate) : String :=
  pad2 d.day ++ "-" ++ monthAbbr d.month ++ "-" ++ decRepr d.year

/-- One per-target block of `build_keyword_criteria` (search_filters.py lines
20-34): the body and subject branches build the same string with a different
search key, so the shared shape is factored here.  For several keywords it is
the wrapped OR-group `f'({body_str})'` with
`body_str = ' OR (' + ') ('.join('(KEY "k")') + ')'`; for one keyword it is
the bare `''.join('KEY "k"')`. -/
def keywordBlock (key : String) (keywords : List String) : String :=
  if keywords.length > 1 then
    "( OR (" ++ pyJoin ") (" (keywords.map fun k => "(" ++ key ++ " \"" ++ k ++ "\")") ++ "))"
  else
    pyJoin "" (keywords.map fun k => key ++ " \"" ++ k ++ "\"")

/-- `build_keyword_criteria` (search_filters.py lines 5-43).  Appends a body
block then a subject block when the target flag is set and the keyword list is
truthy (non-empty); raises `ValueError` when no block was built; wraps two
blocks in `(OR (..) (..))` and returns a single block bare. -/
def build_keyword_criteria (keywords : List String) (search_body search_subject : Bool) :
    Except String String :=
  let search_criteria : List String :=
    (if search_body && !keywords.isEmpty then [keywordBlock "BODY" keywords] else []) ++
    (if search_subject && !keywords.isEmpty then [keywordBlock "SUBJECT" keywords] else [])
  if search_criteria.isEmpty then
    .error "ValueError: At least one of search_body or search_subject must be True."
  else if search_criteria.length > 1 then
    .ok ("(OR (" ++ pyJoin ") (" search_criteria ++ "))")
  else
    .ok (pyJoin ") (" search_criteria)

/-- `build_sender_criteria` (search_filters.py lines 46-63): empty list gives
the empty string, one sender a bare `FROM`, several an `OR (...)` group. -/
def build_sender_criteria (sender_list : List String) : String :=
  match sender_list with
  | [] => ""
  | [s] => "FROM \"" ++ s ++ "\""
  | ss => "OR (" ++ pyJoin " " (ss.map fun s => "FROM \"" ++ s ++ "\"") ++ ")"

/-- `build_date_criteria` (search_filters.py lines 66-82). -/
def build_date_criteria (start_date end_date : Option PyDate) : String :=
  pyJoin " "
    ((match start_date with
      | some d => ["SINCE " ++ strftimeDbY d]
      | none => []) ++
     (match end_date with
      | some d => ["BEFORE " ++ strftimeDbY d]
      | none => []))

/-- `build_overall_criteria` (search_filters.py lines 85-93), with the
source's missing closing parenthesis in the sender branch preserved. -/
def build_overall_criteria (keywords : List String) (search_body search_subject : Bool)
    (start_date end_date : Option PyDate) (sender_list : List String) :
    Except String String :=
  match build_keyword_criteria keywords search_body search_subject with
  | .error e => .error e
  | .ok search_str =>
    let dates_str := build_date_criteria start_date end_date
    let sender_str := build_sender_criteria sender_list
    if sender_str == "" then
      .ok ("(" ++ dates_str ++ " " ++ search_str ++ ")")
    else
      .ok ("(" ++ dates_str ++ " " ++ search_str ++ " " ++ sender_str)

/-- `pathlib.Path(...).suffix` of a file name: the final component from its
last dot, when that dot is neither leading nor trailing. -/
def pathSuffix (name : String) : String :=
  let cs := name.data
  match cs.reverse.findIdx? (fun c => c == '.') with
  | none => ""
  | some j =>
    let i := cs.length - 1 - j
    if 0 < i ∧ i < cs.length - 1 then String.mk (cs.drop i) else ""

/-- One MIME part as `msg.walk()` yields it. -/
structure MsgPart where
  /-- `part.get_content_maintype()`. -/
  maintype : String
  /-- `part.get_content_type()`. -/
  contentType : String
  /-- `part.get('Content-Disposition')`. -/
  disposition : Option String
  /-- `part.get_filename()`; `some ""` models an empty (falsy) name. -/
  filename : Option String
  /-- the decoded payload, already taken to text (see the header comment). -/
  text : String
deriving DecidableEq

/-- One fetched message: decoded headers plus its parts. -/
structure RawMsg where
  msgId : String
  sender : String
  subject : String
  /-- the parsed `Date` header, `none` when missing or unparsable. -/
  date : Option Int
  parts : List MsgPart
deriving DecidableEq

/-- The on-disk download state: the (email id, file name) pairs written under
the download root. -/
abbrev FS : Type := List (String × String)

/-- Whether the attachment directory of a message exists: some file of its id
has been written. -/
def dirExists (emailId : String) (fs : FS) : Bool := fs.any fun f => f.1 == emailId

/-- Writing one attachment file; overwriting an existing path leaves the
layout unchanged. -/
def fsWrite (emailId filename : String) (fs : FS) : FS :=
  if (emailId, filename) ∈ fs then fs else fs ++ [(emailId, filename)]

/-- `shutil.rmtree` on a message's directory: removes every file under it,
and raises `FileNotFoundError` when it does not exist. -/
def rmtree (emailId : String) (fs : FS) : Except String FS :=
  if dirExists emailId fs then .ok (fs.filter fun f => f.1 != emailId)
  else .error "FileNotFoundError"

/-- `EmailData.delete_files` (objects.py lines 54-60): `rmtree` with
`FileNotFoundError` caught and ignored. -/
def delete_files (emailId : String) (fs : FS) : FS :=
  match rmtree emailId fs with
  | .ok fs2 => fs2
  | .error _ => fs

/-- The attachment-collection loop of `EmailData.populate_object` (objects.py
lines 114-135): skip `multipart` containers, parts without a
`Content-Disposition` header and parts without a truthy filename; keep a named
part when its suffix equals some entry of `download_filetypes` or that list
holds `'*'`, recording the written file.  Returns the attachment names in
traversal order and the updated disk state. -/
def collect_attachments (download_filetypes : List String) (emailId : String) :
    List MsgPart → FS → List String × FS
  | [], fs => ([], fs)
  | p :: rest, fs =>
    if p.maintype == "multipart" then collect_attachments download_filetypes emailId rest fs
    else match p.disposition with
    | none => collect_attachments download_filetypes emailId rest fs
    | some _ =>
      match p.filename with
      | none => collect_attachments download_filetypes emailId rest fs
      | some fn =>
        if fn == "" then collect_attachments download_filetypes emailId rest fs
        else if (download_filetypes.any fun ft => pathSuffix fn == ft)
            || download_filetypes.contains "*" then
          let r := collect_attachments download_filetypes emailId rest (fsWrite emailId fn fs)
          (fn :: r.1, r.2)
        else collect_attachments download_filetypes emailId rest fs

/-- The tabular suffixes `get_dataframes` recognizes (objects.py lines
137-147). -/
def tabularSuffixes : List String := [".csv", ".xlsx", ".xls"]

/-- The normalized per-message record built by `EmailData`. -/
structure EmailData where
  emailId : String
  sender : String
  subject : String
  /-- the assembled body text. -/
  message : String
  date : Option Int
  /-- names of the downloaded attachments, in traversal order. -/
  attachments : List String
  /-- attachment names that received a parsed table. -/
  dataframes : List String
deriving DecidableEq

/-- `EmailData.populate_object` followed by `get_dataframes` (objects.py lines
62-147): body text is the newline-join of the non-attachment text parts
(`str(None)` is `"None"`, which never contains `"attachment"`), attachments
come from `collect_attachments`, and a table is parsed for each attachment
with a recognized tabular suffix. -/
def populate_email_data (download_filetypes : List String) (msg : RawMsg) (fs : FS) :
    EmailData × FS :=
  let message := pyJoin "\n" (msg.parts.filterMap fun p =>
    if (p.contentType == "text/plain" || p.contentType == "text/html")
        && !(strIn "attachment" (pyStr p.disposition)) then some p.text else none)
  let ca := collect_attachments download_filetypes msg.msgId msg.parts fs
  ({ emailId := msg.msgId, sender := msg.sender, subject := msg.subject,
     message := message, date := msg.date, attachments := ca.1,
     dataframes := ca.1.filter fun fn => tabularSuffixes.contains (pathSuffix fn) }, ca.2)

/-- Comparison of sort keys as Python performs it: `None` compared with
anything (either side) raises `TypeError`. -/
def pyLtOptInt : Option Int → Option Int → Except String Bool
  | some a, some b => .ok (decide (a < b))
  | _, _ => .error "TypeError: unsupported comparison between NoneType and datetime"

/-- Insert an element before the first existing element not below it, with the
failing comparisons of `pyLtOptInt`; used to model the stable ascending
`sorted`. -/
def pyInsert (key : EmailData → Option Int) (x : EmailData) :
    List EmailData → Except String (List EmailData)
  | [] => .ok [x]
  | y :: ys => do
    let b ← pyLtOptInt (key y) (key x)
    if b then
      let rest ← pyInsert key x ys
      pure (y :: rest)
    else
      pure (x :: y :: ys)

/-- Stable ascending sort with failing comparisons. -/
def pySortAsc (key : EmailData → Option Int) : List EmailData → Except String (List EmailData)
  | [] => .ok []
  | x :: xs => do
    let s ← pySortAsc key xs
    pyInsert key x s

/-- Python `sorted(l, key=key, reverse=rev)`; `reverse=True` is
reverse / ascending-sort / reverse, as CPython implements it. -/
def pySorted (key : EmailData → Option Int) (rev : Bool) (xs : List EmailData) :
    Except String (List EmailData) :=
  if rev then (pySortAsc key xs.reverse).map List.reverse else pySortAsc key xs

/-- `sort_email_objects` (main.py lines 430-464): reject unknown directions,
optionally drop attachment-less records, truncate to `no_of_matches` when that
is non-zero (before sorting, as the source does), then sort by `date`,
descending for `recent_first`. -/
def sort_email_objects (emails : List EmailData) (include_emails_without_attachments : Bool)
    (sort_direction : String) (no_of_matches : Nat) : Except String (List EmailData) :=
  if !(sort_direction == "recent_first" || sort_direction == "recent_last") then
    .error "ValueError: sort_direction must be recent_first or recent_last"
  else
    let emails1 := if include_emails_without_attachments then emails
      else emails.filter fun m => !m.attachments.isEmpty
    let emails2 := if no_of_matches != 0 then emails1.take no_of_matches else emails1
    pySorted (fun m => m.date) (sort_direction == "recent_first") emails2

/-- Building one `EmailData` per candidate id, threading the disk state (the
construction loop of `get_desired_email_objects`, main.py lines 421-425). -/
def build_email_objects (download_filetypes : List String) :
    List RawMsg → FS → List EmailData × FS
  | [], fs => ([], fs)
  | m :: rest, fs =>
    let e := populate_email_data download_filetypes m fs
    let r := build_email_objects download_filetypes rest e.2
    (e.1 :: r.1, r.2)

/-- `get_desired_email_objects` (main.py lines 399-427): build every record,
then apply `sort_email_objects` with its default `no_of_matches = 0`. -/
def get_desired_email_objects (download_filetypes : List String)
    (include_emails_without_attachments : Bool) (sort_direction : String)
    (msgs : List RawMsg) (fs : FS) : Except String (List EmailData) × FS :=
  let b := build_email_objects download_filetypes msgs fs
  (sort_email_objects b.1 include_emails_without_attachments sort_direction 0, b.2)

/-- Whether one record matches the local keyword test of the slow path, in
the source's target order: subject, then body, then attachment names. -/
def email_matches (keywords : List String) (search_subject search_body search_attachment : Bool)
    (m : EmailData) : Bool :=
  (search_subject && keywords.any fun kw => strIn kw m.subject) ||
  (search_body && keywords.any fun kw => strIn kw m.message) ||
  (search_attachment && keywords.any fun kw => m.attachments.any fun a => strIn kw a)

/-- The per-message loop of `search_emails_slow` (main.py lines 383-394):
keep a record at its first matching enabled target, otherwise delete its
downloaded files and drop it. -/
def filter_mail_objects (keywords : List String)
    (search_subject search_body search_attachment : Bool) :
    List EmailData → FS → List EmailData × FS
  | [], fs => ([], fs)
  | m :: rest, fs =>
    if search_subject && keywords.any fun kw => strIn kw m.subject then
      let r := filter_mail_objects keywords search_subject search_body search_attachment rest fs
      (m :: r.1, r.2)
    else if search_body && keywords.any fun kw => strIn kw m.message then
      let r := filter_mail_objects keywords search_subject search_body search_attachment rest fs
      (m :: r.1, r.2)
    else if search_attachment && keywords.any fun kw => m.attachments.any fun a => strIn kw a then
      let r := filter_mail_objects keywords search_subject search_body search_attachment rest fs
      (m :: r.1, r.2)
    else
      filter_mail_objects keywords search_subject search_body search_attachment rest
        (delete_files m.emailId fs)

/-- The keyword stage of `search_emails_slow` (main.py lines 379-396): a
literal `'*'` keyword short-circuits to all candidates, otherwise the
per-message loop runs. -/
def slow_keyword_stage (keywords : List String)
    (search_subject search_body search_attachment : Bool)
    (mail_objects : List EmailData) (fs : FS) : List EmailData × FS :=
  if "*" ∈ keywords then (mail_objects, fs)
  else filter_mail_objects keywords search_subject search_body search_attachment mail_objects fs

/-- `search_emails_slow` (main.py lines 340-396), from the candidate messages
of the date/sender window on: default the download filetypes to `['*']`,
materialize and sort every record, then run the keyword stage. -/
def search_emails_slow (keywords : List String)
    (search_body search_subject search_attachment : Bool)
    (download_filetypes : Option (List String))
    (include_emails_without_attachments : Bool) (sort_direction : String)
    (msgs : List RawMsg) (fs : FS) : Except String (List EmailData) × FS :=
  let dft := download_filetypes.getD ["*"]
  match get_desired_email_objects dft include_emails_without_attachments sort_direction msgs fs with
  | (.error e, fs2) => (.error e, fs2)
  | (.ok objs, fs2) =>
    let r := slow_keyword_stage keywords search_subject search_body search_attachment objs fs2
    (.ok r.1, r.2)

/-- The slow-path dispatch of `search_emails` (main.py lines 196-214):
when attachment-name search or accurate mode is requested it calls
`search_emails_slow` passing keywords, the target flags, the date window
(already folded into `msgs` here) and the attachment-less flag - and leaving
`search_attachment` at its default `False`, `download_filetypes` at its
default `None` and `sort_direction` at its default `'recent_first'`;
`attachment_filetypes` and `no_of_matches` are accepted but unused on this
path.  The fast path (`none`) is resolved by the server-side search, outside
this model. -/
def search_emails_to_slow (keywords : List String)
    (search_body search_subject search_attachment_name : Bool)
    (attachment_filetypes : List String) (no_of_matches : Nat)
    (include_emails_without_attachments : Bool) (accurate_search : Bool)
    (msgs : List RawMsg) (fs : FS) : Option (Except String (List EmailData) × FS) :=
  let _ := attachment_filetypes
  let _ := no_of_matches
  if search_attachment_name || accurate_search then
    some (search_emails_slow keywords search_body search_subject false none
      include_emails_without_attachments "recent_first" msgs fs)
  else none

/-- The qualification test of one part in the attachment-collection loop
(objects.py lines 117-127), factored out of `collect_attachments` so that its
result list can be characterized: not a `multipart` container, disposition
header present, truthy filename, and the suffix allowed or the list holds
`'*'`. -/
def part_ok (allow : List String) (p : MsgPart) : Bool :=
  if p.maintype == "multipart" then false
  else match p.disposition with
  | none => false
  | some _ =>
    match p.filename with
    | none => false
    | some fn =>
      if fn == "" then false
      else (allow.any fun ft => pathSuffix fn == ft) || allow.contains "*"

/-- A PDF part marked as an attachment; input for the C1 record. -/
def c1part : MsgPart :=
  { maintype := "application", contentType := "application/pdf",
    disposition := some "attachment; filename=doc.pdf", filename := some "doc.pdf", text := "" }

/-- The C1 candidate message: one PDF attachment, configured allow-list
`[".csv"]`. -/
def c1msg : RawMsg :=
  { msgId := "7", sender := "a@b.c", subject := "Report", date := some 100, parts := [c1part] }

/-- The record the slow path builds for `c1msg`. -/
def c1obj : EmailData :=
  { emailId := "7", sender := "a@b.c", subject := "Report", message := "", date := some 100,
    attachments := ["doc.pdf"], dataframes := [] }

/-- The plain-text body part of the C2 message. -/
def c2text : MsgPart :=
  { maintype := "text", contentType := "text/plain", disposition := none, filename := none,
    text := "hi" }

/-- The C2 attachment part, whose name contains the searched keyword. -/
def c2att : MsgPart :=
  { maintype := "text", contentType := "text/csv", disposition := some "attachment",
    filename := some "report.csv", text := "x,y" }

/-- The C2 candidate: keyword only in the attachment name, not in subject or
body. -/
def c2msg : RawMsg :=
  { msgId := "9", sender := "a@b.c", subject := "hello", date := some 5,
    parts := [c2text, c2att] }

/-- A record with the given id and timestamp, for the sorting claims. -/
def recWith (i : String) (d : Option Int) : EmailData :=
  { emailId := i, sender := "s@x.y", subject := "u", message := "m", date := d,
    attachments := ["x.csv"], dataframes := ["x.csv"] }

/-- The disposition-marked part named `report.CSV`, for the case-sensitivity
claim. -/
def c8part : MsgPart :=
  { maintype := "application", contentType := "application/octet-stream",
    disposition := some "attachment", filename := some "report.CSV", text := "" }

/-- A record whose subject matches the C6 witness keyword. -/
def w6match : EmailData :=
  { emailId := "1", sender := "s@x.y", subject := "invoice may", message := "m",
    date := some 1, attachments := ["a.csv"], dataframes := [] }

/-- A record matching no target for the C6 witness keyword. -/
def w6drop : EmailData :=
  { emailId := "2", sender := "s@x.y", subject := "report", message := "m",
    date := some 2, attachments := ["b.csv"], dataframes := [] }

/-- The record of the C7 wildcard witness. -/
def w7rec : EmailData :=
  { emailId := "3", sender := "s@x.y", subject := "anything", message := "m",
    date := some 3, attachments := ["c.csv"], dataframes := [] }

end Ratekit

namespace Ratekit

/-! ### Helper lemmas -/

theorem delete_files_eq_filter (emailId : String) (fs : FS) :
    delete_files emailId fs = fs.filter fun f => f.1 != emailId := by
  unfold delete_files rmtree
  by_cases h : dirExists emailId fs = true
  · simp [h]
  · rw [if_neg h]
    refine ((List.filter_eq_self).mpr ?_).symm
    intro f hf
    simp only [dirExists, List.any_eq_true, not_exists, not_and] at h
    have hne : ¬ (f.1 == emailId) = true := h f hf
    simp only [beq_iff_eq] at hne
    simp [bne, hne]

theorem dirExists_filter_self (emailId : String) (fs : FS) :
    dirExists emailId (fs.filter fun f => f.1 != emailId) = false := by
  simp only [dirExists, List.any_eq_false]
  intro f hf
  have := (List.mem_filter.mp hf).2
  simpa [bne] using this

theorem filter_mail_objects_spec (keywords : List String) (ss sb sa : Bool)
    (mail_objects : List EmailData) :
    ∀ fs : FS,
      (filter_mail_objects keywords ss sb sa mail_objects fs).1
        = mail_objects.filter (email_matches keywords ss sb sa)
      ∧ (filter_mail_objects keywords ss sb sa mail_objects fs).2
        = fs.filter fun f => mail_objects.all fun m =>
            email_matches keywords ss sb sa m || (f.1 != m.emailId) := by
  induction mail_objects with
  | nil => intro fs; simp [filter_mail_objects]
  | cons m rest ih =>
    intro fs
    by_cases h1 : (ss && keywords.any fun kw => strIn kw m.subject) = true
    · have hm : email_matches keywords ss sb sa m = true := by
        simp [email_matches, h1]
      constructor
      · simp only [filter_mail_objects, h1, if_true, List.filter_cons, hm]
        simp [(ih fs).1]
      · simp only [filter_mail_objects, h1, if_true]
        rw [(ih fs).2]
        refine List.filter_congr ?_
        intro f hf
        simp [hm]
    · by_cases h2 : (sb && keywords.any fun kw => strIn kw m.message) = true
      · have hm : email_matches keywords ss sb sa m = true := by
          simp [email_matches, h2]
        constructor
        · simp only [filter_mail_objects, h1, h2, if_true, if_false, List.filter_cons, hm]
          simp [(ih fs).1]
        · simp only [filter_mail_objects, h1, h2, if_true, if_false]
          rw [(ih fs).2]
          refine List.filter_congr ?_
          intro f hf
          simp [hm]
      · by_cases h3 : (sa && keywords.any fun kw => m.attachments.any fun a => strIn kw a) = true
        · have hm : email_matches keywords ss sb sa m = true := by
            simp [email_matches, h3]
          constructor
          · simp only [filter_mail_objects, h1, h2, h3, if_true, if_false, List.filter_cons, hm]
            simp [(ih fs).1]
          · simp only [filter_mail_objects, h1, h2, h3, if_true, if_false]
            rw [(ih fs).2]
            refine List.filter_congr ?_
            intro f hf
            simp [hm]
        · have hm : email_matches keywords ss sb sa m = false := by
            simp only [Bool.not_eq_true] at h1 h2 h3
            simp [email_matches, h1, h2, h3]
          obtain ⟨ih1, ih2⟩ := ih (delete_files m.emailId fs)
          constructor
          · simp only [filter_mail_objects]
            rw [if_neg h1, if_neg h2, if_neg h3]
            simp only [List.filter_cons, hm]
            simpa using ih1
          · simp only [filter_mail_objects]
            rw [if_neg h1, if_neg h2, if_neg h3]
            rw [ih2, delete_files_eq_filter, List.filter_filter]
            refine List.filter_congr ?_
            intro f hf
            simp [hm, Bool.and_comm]

theorem collect_attachments_fst (allow : List String) (emailId : String)
    (parts : List MsgPart) :
    ∀ fs : FS,
      (collect_attachments allow emailId parts fs).1
        = (parts.filter (part_ok allow)).filterMap fun p => p.filename := by
  induction parts with
  | nil => intro fs; simp [collect_attachments]
  | cons p rest ih =>
    intro fs
    by_cases hmt : (p.maintype == "multipart") = true
    · have hpo : part_ok allow p = false := by
        simp only [part_ok]; rw [if_pos hmt]
      simp only [collect_attachments]
      rw [if_pos hmt]
      simp [List.filter_cons, hpo, ih fs]
    · cases hd : p.disposition with
      | none =>
        have hpo : part_ok allow p = false := by
          simp only [part_ok]; rw [if_neg hmt, hd]
        simp only [collect_attachments]
        rw [if_neg hmt, hd]
        simp [List.filter_cons, hpo, ih fs]
      | some dval =>
        cases hf : p.filename with
        | none =>
          have hpo : part_ok allow p = false := by
            simp only [part_ok]; rw [if_neg hmt, hd]; dsimp only; rw [hf]
          simp only [collect_attachments]
          rw [if_neg hmt, hd]
          dsimp only
          rw [hf]
          simp [List.filter_cons, hpo, ih fs]
        | some fn =>
          by_cases hempty : (fn == "") = true
          · have hpo : part_ok allow p = false := by
              simp only [part_ok]; rw [if_neg hmt, hd]; dsimp only; rw [hf]
              dsimp only; rw [if_pos hempty]
            simp only [collect_attachments]
            rw [if_neg hmt, hd]
            dsimp only
            rw [hf]
            dsimp only
            rw [if_pos hempty]
            simp [List.filter_cons, hpo, ih fs]
          · by_cases hq : ((allow.any fun ft => pathSuffix fn == ft)
                || allow.contains "*") = true
            · have hpo : part_ok allow p = true := by
                simp only [part_ok]; rw [if_neg hmt, hd]; dsimp only; rw [hf]
                dsimp only; rw [if_neg hempty]; exact hq
              simp only [collect_attachments]
              rw [if_neg hmt, hd]
              dsimp only
              rw [hf]
              dsimp only
              rw [if_neg hempty, if_pos hq]
              simp [List.filter_cons, hpo, hf, ih]
            · have hpo : part_ok allow p = false := by
                simp only [part_ok]; rw [if_neg hmt, hd]; dsimp only; rw [hf]
                dsimp only; rw [if_neg hempty]
                simp only [Bool.not_eq_true] at hq
                exact hq
              simp only [collect_attachments]
              rw [if_neg hmt, hd]
              dsimp only
              rw [hf]
              dsimp only
              rw [if_neg hempty, if_neg hq]
              simp [List.filter_cons, hpo, ih fs]

theorem part_ok_suffix (allow : List String) (p : MsgPart) (fn : String)
    (hfn : p.filename = some fn) (h : part_ok allow p = true) :
    pathSuffix fn ∈ allow ∨ "*" ∈ allow := by
  unfold part_ok at h
  by_cases hmt : (p.maintype == "multipart") = true
  · rw [if_pos hmt] at h; simp at h
  · rw [if_neg hmt] at h
    cases hd : p.disposition with
    | none => rw [hd] at h; simp at h
    | some dv =>
      rw [hd] at h
      dsimp only at h
      rw [hfn] at h
      dsimp only at h
      by_cases he : (fn == "") = true
      · rw [if_pos he] at h; simp at h
      · rw [if_neg he] at h
        rw [Bool.or_eq_true] at h
        rcases h with ha | hb
        · rcases List.any_eq_true.mp ha with ⟨ft, hft, hbeq⟩
          exact Or.inl ((beq_iff_eq.mp hbeq).symm ▸ hft)
        · exact Or.inr (by simpa using hb)

theorem part_ok_of_wildcard (allow : List String) (p : MsgPart) (fn : String)
    (hw : "*" ∈ allow) (hmt : p.maintype ≠ "multipart") (hdis : p.disposition.isSome = true)
    (hfn : p.filename = some fn) (hne : fn ≠ "") : part_ok allow p = true := by
  unfold part_ok
  rw [if_neg (by simpa using hmt)]
  cases hd : p.disposition with
  | none => rw [hd] at hdis; simp at hdis
  | some dv =>
    dsimp only
    rw [hfn]
    dsimp only
    rw [if_neg (by simpa using hne)]
    rw [Bool.or_eq_true]
    refine Or.inr ?_
    simpa using hw

end Ratekit

namespace Ratekit

theorem countChar_append (c : Char) (s t : String) :
    countChar c (s ++ t) = countChar c s + countChar c t := by
  unfold countChar
  rw [show (s ++ t).data = s.data ++ t.data from rfl, List.count_append]

theorem countChar_pyJoin (c : Char) (sep : String) (l : List String) :
    countChar c (pyJoin sep l)
      = (l.map (countChar c)).sum + (l.length - 1) * countChar c sep := by
  induction l with
  | nil => simp [pyJoin, countChar]
  | cons s rest ih =>
    cases rest with
    | nil => simp [pyJoin]
    | cons s2 r2 =>
      simp only [pyJoin] at ih ⊢
      rw [countChar_append, countChar_append, ih]
      simp only [List.map_cons, List.sum_cons, List.length_cons, Nat.succ_sub_one]
      ring

theorem sum_count_map (c : Char) (pre post : String) (l : List String)
    (h : ∀ k ∈ l, countChar c k = 0) :
    ((l.map fun k => countChar c (pre ++ k ++ post)).sum)
      = l.length * (countChar c pre + countChar c post) := by
  induction l with
  | nil => simp
  | cons k rest ih =>
    simp only [List.map_cons, List.sum_cons, List.length_cons]
    rw [countChar_append, countChar_append, h k (by simp),
      ih fun x hx => h x (by simp [hx])]
    ring

theorem decDigitChar_ne_paren (n : Nat) : decDigitChar n ≠ '(' ∧ decDigitChar n ≠ ')' := by
  unfold decDigitChar
  rw [List.getD_eq_getElem?_getD]
  cases h : decDigitChars[n]? with
  | none => simp
  | some a =>
    have ha : a ∈ decDigitChars := List.getElem?_mem h
    fin_cases ha <;> simp

theorem paren_not_mem_decDigitsAux (c : Char) (hc : c = '(' ∨ c = ')') (fuel : Nat) :
    ∀ n, c ∉ decDigitsAux fuel n := by
  induction fuel with
  | zero => intro n; simp [decDigitsAux]
  | succ f ih =>
    intro n
    simp only [decDigitsAux]
    split
    · simp only [List.mem_singleton]
      intro h
      rcases hc with rfl | rfl
      · exact (decDigitChar_ne_paren n).1 h.symm
      · exact (decDigitChar_ne_paren n).2 h.symm
    · intro h
      rcases List.mem_append.mp h with h2 | h2
      · exact ih (n / 10) h2
      · rcases List.mem_singleton.mp h2 with rfl
        rcases hc with h3 | h3
        · exact (decDigitChar_ne_paren (n % 10)).1 h3
        · exact (decDigitChar_ne_paren (n % 10)).2 h3

theorem countChar_decRepr (c : Char) (hc : c = '(' ∨ c = ')') (n : Nat) :
    countChar c (decRepr n) = 0 := by
  unfold countChar decRepr
  exact List.count_eq_zero.mpr (paren_not_mem_decDigitsAux c hc _ n)

theorem countChar_monthAbbr (c : Char) (hc : c = '(' ∨ c = ')') (m : Nat) :
    countChar c (monthAbbr m) = 0 := by
  unfold monthAbbr
  rw [List.getD_eq_getElem?_getD]
  cases h : monthAbbrs[m - 1]? with
  | none => rcases hc with rfl | rfl <;> decide
  | some a =>
    have ha : a ∈ monthAbbrs := List.getElem?_mem h
    simp only [Option.getD_some]
    fin_cases ha <;> rcases hc with rfl | rfl <;> decide

theorem countChar_strftime (c : Char) (hc : c = '(' ∨ c = ')') (d : PyDate) :
    countChar c (strftimeDbY d) = 0 := by
  have hdash : countChar c "-" = 0 := by rcases hc with rfl | rfl <;> decide
  have hzero : countChar c "0" = 0 := by rcases hc with rfl | rfl <;> decide
  have hpad : countChar c (pad2 d.day) = 0 := by
    unfold pad2
    split
    · rw [countChar_append, hzero, countChar_decRepr c hc]
    · exact countChar_decRepr c hc _
  unfold strftimeDbY
  rw [countChar_append, countChar_append, countChar_append, countChar_append,
    hpad, hdash, countChar_monthAbbr c hc, countChar_decRepr c hc]

theorem countChar_build_date (c : Char) (hc : c = '(' ∨ c = ')')
    (sd ed : Option PyDate) : countChar c (build_date_criteria sd ed) = 0 := by
  have hsince : ∀ d : PyDate, countChar c ("SINCE " ++ strftimeDbY d) = 0 := by
    intro d
    rw [countChar_append, countChar_strftime c hc]
    rcases hc with rfl | rfl <;> decide
  have hbefore : ∀ d : PyDate, countChar c ("BEFORE " ++ strftimeDbY d) = 0 := by
    intro d
    rw [countChar_append, countChar_strftime c hc]
    rcases hc with rfl | rfl <;> decide
  have hsep : countChar c " " = 0 := by rcases hc with rfl | rfl <;> decide
  unfold build_date_criteria
  cases sd with
  | none =>
    cases ed with
    | none => rfl
    | some d =>
      show countChar c (pyJoin " " ["BEFORE " ++ strftimeDbY d]) = 0
      exact hbefore d
  | some d =>
    cases ed with
    | none =>
      show countChar c (pyJoin " " ["SINCE " ++ strftimeDbY d]) = 0
      exact hsince d
    | some d2 =>
      show countChar c (pyJoin " " ["SINCE " ++ strftimeDbY d, "BEFORE " ++ strftimeDbY d2]) = 0
      rw [show pyJoin " " ["SINCE " ++ strftimeDbY d, "BEFORE " ++ strftimeDbY d2]
          = ("SINCE " ++ strftimeDbY d) ++ " " ++ ("BEFORE " ++ strftimeDbY d2) from rfl]
      rw [countChar_append, countChar_append, hsince d, hsep, hbefore d2]

theorem keywordBlock_balanced (key : String) (kws : List String)
    (hkey : countChar '(' key = 0 ∧ countChar ')' key = 0)
    (hkws : ∀ k ∈ kws, countChar '(' k = 0 ∧ countChar ')' k = 0) :
    countChar '(' (keywordBlock key kws) = countChar ')' (keywordBlock key kws) := by
  unfold keywordBlock
  by_cases hlen : kws.length > 1
  · rw [if_pos hlen]
    have hcount : ∀ c : Char, countChar c key = 0 → (∀ k ∈ kws, countChar c k = 0) →
        countChar c ("( OR ("
            ++ pyJoin ") (" (kws.map fun k => "(" ++ key ++ " \"" ++ k ++ "\")") ++ "))")
          = countChar c "( OR (" + countChar c "))"
            + kws.length * (countChar c "(" + countChar c " \"" + countChar c "\")")
            + (kws.length - 1) * countChar c ") (" := by
      intro c hck hcl
      rw [countChar_append, countChar_append, countChar_pyJoin, List.map_map,
        List.length_map]
      rw [show (countChar c ∘ fun k => "(" ++ key ++ " \"" ++ k ++ "\")")
          = fun k => countChar c ("(" ++ key ++ " \"" ++ k ++ "\")") from rfl]
      rw [sum_count_map c ("(" ++ key ++ " \"") "\")" kws hcl]
      rw [show countChar c ("(" ++ key ++ " \"")
          = countChar c "(" + countChar c key + countChar c " \"" from by
            rw [countChar_append, countChar_append]]
      rw [hck]
      ring
    rw [hcount '(' hkey.1 fun k hk => (hkws k hk).1,
      hcount ')' hkey.2 fun k hk => (hkws k hk).2]
    have e1 : countChar '(' "( OR (" = 2 := by decide
    have e2 : countChar ')' "( OR (" = 0 := by decide
    have e3 : countChar '(' "))" = 0 := by decide
    have e4 : countChar ')' "))" = 2 := by decide
    have e5 : countChar '(' "(" = 1 := by decide
    have e6 : countChar ')' "(" = 0 := by decide
    have e7 : countChar '(' " \"" = 0 := by decide
    have e8 : countChar ')' " \"" = 0 := by decide
    have e9 : countChar '(' "\")" = 0 := by decide
    have e10 : countChar ')' "\")" = 1 := by decide
    have e11 : countChar '(' ") (" = 1 := by decide
    have e12 : countChar ')' ") (" = 1 := by decide
    rw [e1, e2, e3, e4, e5, e6, e7, e8, e9, e10, e11, e12]
  · rw [if_neg hlen]
    cases kws with
    | nil => rfl
    | cons k rest =>
      cases rest with
      | cons k2 r2 => simp at hlen
      | nil =>
        show countChar '(' (pyJoin "" [key ++ " \"" ++ k ++ "\""])
          = countChar ')' (pyJoin "" [key ++ " \"" ++ k ++ "\""])
        have h1 := hkws k (by simp)
        rw [show pyJoin "" [key ++ " \"" ++ k ++ "\""] = key ++ " \"" ++ k ++ "\"" from rfl]
        simp only [countChar_append]
        rw [hkey.1, hkey.2, h1.1, h1.2]
        decide

theorem build_keyword_criteria_ok_shape (kws : List String) (b s : Bool) (w : String)
    (hres : build_keyword_criteria kws b s = .ok w)
    (hkws : ∀ k ∈ kws, countChar '(' k = 0 ∧ countChar ')' k = 0) :
    countChar '(' w = countChar ')' w := by
  have hbody : countChar '(' (keywordBlock "BODY" kws) = countChar ')' (keywordBlock "BODY" kws) :=
    keywordBlock_balanced "BODY" kws (by constructor <;> decide) hkws
  have hsubj : countChar '(' (keywordBlock "SUBJECT" kws)
      = countChar ')' (keywordBlock "SUBJECT" kws) :=
    keywordBlock_balanced "SUBJECT" kws (by constructor <;> decide) hkws
  unfold build_keyword_criteria at hres
  by_cases hkw : kws.isEmpty = true
  · rw [hkw] at hres
    simp at hres
  · rw [show kws.isEmpty = false from by simpa using hkw] at hres
    cases b <;> cases s
    · simp at hres
    · simp only [Bool.false_and, Bool.true_and, Bool.not_false, Bool.and_true,
        Bool.false_eq_true, if_false, if_true, List.nil_append] at hres
      simp at hres
      rcases hres with rfl
      rw [show pyJoin ") (" [keywordBlock "SUBJECT" kws] = keywordBlock "SUBJECT" kws from rfl]
      exact hsubj
    · simp only [Bool.false_and, Bool.true_and, Bool.not_false, Bool.and_true,
        Bool.false_eq_true, if_false, if_true, List.append_nil] at hres
      simp at hres
      rcases hres with rfl
      rw [show pyJoin ") (" [keywordBlock "BODY" kws] = keywordBlock "BODY" kws from rfl]
      exact hbody
    · simp only [Bool.true_and, Bool.not_false, if_true] at hres
      simp at hres
      rcases hres with rfl
      rw [show pyJoin ") (" [keywordBlock "BODY" kws, keywordBlock "SUBJECT" kws]
          = keywordBlock "BODY" kws ++ ") (" ++ keywordBlock "SUBJECT" kws from rfl]
      simp only [countChar_append]
      rw [hbody, hsubj]
      have e1 : countChar '(' "(OR (" = 2 := by decide
      have e2 : countChar ')' "(OR (" = 0 := by decide
      have e3 : countChar '(' "))" = 0 := by decide
      have e4 : countChar ')' "))" = 2 := by decide
      have e5 : countChar '(' ") (" = 1 := by decide
      have e6 : countChar ')' ") (" = 1 := by decide
      rw [e1, e2, e3, e4, e5, e6]
      omega

theorem append_right_ne_empty (x y : String) (hy : y.data ≠ []) : x ++ y ≠ "" := by
  intro h
  have hd : (x ++ y).data = ([] : List Char) := by rw [h]
  rw [show (x ++ y).data = x.data ++ y.data from rfl] at hd
  exact hy (List.append_eq_nil.mp hd).2

theorem build_sender_criteria_balanced (l : List String)
    (hsnd : ∀ x ∈ l, countChar '(' x = 0 ∧ countChar ')' x = 0) :
    countChar '(' (build_sender_criteria l) = countChar ')' (build_sender_criteria l) := by
  match l with
  | [] => rfl
  | [x] =>
    show countChar '(' ("FROM \"" ++ x ++ "\"") = countChar ')' ("FROM \"" ++ x ++ "\"")
    simp only [countChar_append]
    have hx := hsnd x (List.mem_singleton.mpr rfl)
    rw [hx.1, hx.2]
    decide
  | x :: y :: r =>
    show countChar '(' ("OR ("
        ++ pyJoin " " ((x :: y :: r).map fun s => "FROM \"" ++ s ++ "\"") ++ ")")
      = countChar ')' ("OR ("
        ++ pyJoin " " ((x :: y :: r).map fun s => "FROM \"" ++ s ++ "\"") ++ ")")
    have hcount : ∀ c : Char, (∀ k ∈ x :: y :: r, countChar c k = 0) →
        countChar c ("OR ("
            ++ pyJoin " " ((x :: y :: r).map fun s => "FROM \"" ++ s ++ "\"") ++ ")")
          = countChar c "OR (" + countChar c ")"
            + (x :: y :: r).length * (countChar c "FROM \"" + countChar c "\"")
            + ((x :: y :: r).length - 1) * countChar c " " := by
      intro c hcl
      rw [countChar_append, countChar_append, countChar_pyJoin, List.map_map,
        List.length_map]
      rw [show (countChar c ∘ fun s => "FROM \"" ++ s ++ "\"")
          = fun s => countChar c ("FROM \"" ++ s ++ "\"") from rfl]
      rw [sum_count_map c "FROM \"" "\"" _ hcl]
      ring
    rw [hcount '(' fun k hk => (hsnd k hk).1, hcount ')' fun k hk => (hsnd k hk).2]
    have e1 : countChar '(' "OR (" = 1 := by decide
    have e2 : countChar ')' "OR (" = 0 := by decide
    have e3 : countChar '(' ")" = 0 := by decide
    have e4 : countChar ')' ")" = 1 := by decide
    have e5 : countChar '(' "FROM \"" = 0 := by decide
    have e6 : countChar ')' "FROM \"" = 0 := by decide
    have e7 : countChar '(' "\"" = 0 := by decide
    have e8 : countChar ')' "\"" = 0 := by decide
    have e9 : countChar '(' " " = 0 := by decide
    have e10 : countChar ')' " " = 0 := by decide
    rw [e1, e2, e3, e4, e5, e6, e7, e8, e9, e10]

theorem build_sender_criteria_empty_iff (l : List String) :
    (build_sender_criteria l == "") = l.isEmpty := by
  match l with
  | [] => rfl
  | [x] =>
    show (("FROM \"" ++ x ++ "\"") == "") = false
    rw [beq_eq_false_iff_ne]
    exact append_right_ne_empty _ _ (by decide)
  | x :: y :: r =>
    show (("OR (" ++ pyJoin " " ((x :: y :: r).map fun s => "FROM \"" ++ s ++ "\"") ++ ")")
        == "") = false
    rw [beq_eq_false_iff_ne]
    exact append_right_ne_empty _ _ (by decide)

theorem build_keyword_criteria_isOk (keywords : List String) (b s : Bool) :
    (build_keyword_criteria keywords b s).isOk = (!keywords.isEmpty && (b || s)) := by
  cases keywords <;> cases b <;> cases s <;>
    simp [build_keyword_criteria, Except.isOk, Except.toBool]

end Ratekit

namespace Ratekit

/-! ### Claim theorems -/

/-- Claim C1 (code bug exhibited).  The spec requires the records of a
slow-path search to hold only attachments whose extension is in the configured
allow-list (here `[".csv"]`, which does not contain the wildcard), but
`search_emails` dispatches to `search_emails_slow` without forwarding
`attachment_filetypes`, so the slow path falls back to its wildcard default
and the returned record carries the excluded `doc.pdf`. -/
theorem c1_slow_path_ignores_configured_filetypes :
    search_emails_to_slow ["*"] true true false [".csv"] 0 true true [c1msg] []
      = some (.ok [c1obj], [("7", "doc.pdf")])
    ∧ c1obj.attachments = ["doc.pdf"]
    ∧ pathSuffix "doc.pdf" ∉ ([".csv"] : List String)
    ∧ "*" ∉ ([".csv"] : List String) :=
  ⟨rfl, rfl, by decide, by decide⟩

/-- Claim C2 (code bug exhibited).  With attachment-name search requested, a
candidate whose attachment name `report.csv` contains the keyword while
subject `hello` and body `hi` do not must be included; but `search_emails`
dispatches to `search_emails_slow` without forwarding the attachment-name
flag, so the candidate is dropped (empty result) and its downloaded file is
deleted (empty final filesystem). -/
theorem c2_attachment_name_match_dropped :
    search_emails_to_slow ["report"] true true true [".csv"] 0 true false [c2msg] []
      = some (.ok [], [])
    ∧ strIn "report" "report.csv" = true
    ∧ strIn "report" "hello" = false
    ∧ strIn "report" "hi" = false :=
  ⟨rfl, rfl, rfl, rfl⟩

/-- Claim C3 (code bug exhibited).  On the spec's own example
`[T2, None, T1, T2]` the result-policy sort does not complete: Python's
`sorted` raises `TypeError` when a `None` timestamp is compared with a
`datetime`, in both directions. -/
theorem c3_sort_raises_on_absent_timestamp :
    sort_email_objects
        [recWith "1" (some 2), recWith "2" none, recWith "3" (some 1), recWith "4" (some 2)]
        true "recent_first" 0
      = .error "TypeError: unsupported comparison between NoneType and datetime"
    ∧ sort_email_objects
        [recWith "1" (some 2), recWith "2" none, recWith "3" (some 1), recWith "4" (some 2)]
        true "recent_last" 0
      = .error "TypeError: unsupported comparison between NoneType and datetime" :=
  ⟨rfl, rfl⟩

/-- Claim C4 (code bug exhibited).  `sort_email_objects` truncates before
sorting: with records dated 1 then 2, direction `recent_first` and
`no_of_matches = 1` it returns the older record, whereas the first record of
the sorted sequence is the newer one. -/
theorem c4_truncation_applied_before_sort :
    sort_email_objects [recWith "1" (some 1), recWith "2" (some 2)] true "recent_first" 1
      = .ok [recWith "1" (some 1)]
    ∧ pySorted (fun m => m.date) true [recWith "1" (some 1), recWith "2" (some 2)]
      = .ok [recWith "2" (some 2), recWith "1" (some 1)]
    ∧ [recWith "2" (some 2), recWith "1" (some 1)].take 1 = [recWith "2" (some 2)]
    ∧ recWith "1" (some 1) ≠ recWith "2" (some 2) :=
  ⟨rfl, rfl, rfl, by decide⟩

/-- Claim C5, counterexample.  The claim says the builder fails exactly when
both targets are disabled with non-empty keywords; but with both targets
enabled and an empty keyword set it still raises, instead of returning a
filter expression. -/
theorem c5_counterexample_empty_keywords :
    build_keyword_criteria [] true true
      = .error "ValueError: At least one of search_body or search_subject must be True."
    ∧ (build_keyword_criteria [] true true).isOk = false :=
  ⟨rfl, rfl⟩

/-- Claim C5 as amended: the keyword-criteria builder fails exactly when the
keyword set is empty or both targets are disabled; for non-empty keywords with
at least one target enabled it returns a filter expression - a bare term per
target for one keyword, and one OR-group per enabled target for more than
one. -/
theorem c5_keyword_criteria_amended :
    (∀ (keywords : List String) (b s : Bool),
        (build_keyword_criteria keywords b s).isOk = (!keywords.isEmpty && (b || s)))
    ∧ build_keyword_criteria ["rep"] true false = .ok "BODY \"rep\""
    ∧ build_keyword_criteria ["a"] true true = .ok "(OR (BODY \"a\") (SUBJECT \"a\"))"
    ∧ build_keyword_criteria ["a", "b"] false true
        = .ok "( OR ((SUBJECT \"a\")) ((SUBJECT \"b\")))"
    ∧ build_keyword_criteria ["a", "b"] true true
        = .ok "(OR (( OR ((BODY \"a\")) ((BODY \"b\")))) (( OR ((SUBJECT \"a\")) ((SUBJECT \"b\")))))" :=
  ⟨build_keyword_criteria_isOk, rfl, rfl, rfl, rfl⟩

/-- Claim C6.  For a non-wildcard keyword set, the keyword stage of the slow
path returns exactly the candidates matching some enabled target, and the
final filesystem keeps a file exactly when every candidate either matches or
owns a different directory: non-matching candidates' downloaded files are all
deleted, matching candidates' files are left in place. -/
theorem c6_slow_path_file_hygiene (keywords : List String) (ss sb sa : Bool)
    (mail_objects : List EmailData) (fs : FS) (hw : "*" ∉ keywords) :
    (slow_keyword_stage keywords ss sb sa mail_objects fs).1
      = mail_objects.filter (email_matches keywords ss sb sa)
    ∧ (slow_keyword_stage keywords ss sb sa mail_objects fs).2
      = fs.filter fun f => mail_objects.all fun m =>
          email_matches keywords ss sb sa m || (f.1 != m.emailId) := by
  unfold slow_keyword_stage
  rw [if_neg hw]
  exact filter_mail_objects_spec keywords ss sb sa mail_objects fs

/-- Witness for C6 at a concrete input: of two candidates only the first
matches; it is returned with its file kept, the other's file is deleted. -/
theorem c6_slow_path_file_hygiene_witness :
    ("*" ∉ (["inv"] : List String))
    ∧ ((slow_keyword_stage ["inv"] true false false [w6match, w6drop]
          [("1", "a.csv"), ("2", "b.csv")]).1
        = [w6match, w6drop].filter (email_matches ["inv"] true false false)
      ∧ (slow_keyword_stage ["inv"] true false false [w6match, w6drop]
          [("1", "a.csv"), ("2", "b.csv")]).2
        = [("1", "a.csv"), ("2", "b.csv")].filter fun f => [w6match, w6drop].all fun m =>
            email_matches ["inv"] true false false m || (f.1 != m.emailId)) :=
  ⟨by decide,
    c6_slow_path_file_hygiene ["inv"] true false false [w6match, w6drop]
      [("1", "a.csv"), ("2", "b.csv")] (by decide)⟩

/-- Claim C7.  A literal `'*'` keyword short-circuits the slow path's keyword
stage: every candidate is returned unchanged and no file is deleted,
independently of the per-target flags (so no per-target evaluation can have
taken place). -/
theorem c7_wildcard_short_circuit (keywords : List String) (ss sb sa : Bool)
    (mail_objects : List EmailData) (fs : FS) (hw : "*" ∈ keywords) :
    slow_keyword_stage keywords ss sb sa mail_objects fs = (mail_objects, fs) := by
  simp [slow_keyword_stage, hw]

/-- Witness for C7 at a concrete input. -/
theorem c7_wildcard_short_circuit_witness :
    ("*" ∈ (["*"] : List String))
    ∧ slow_keyword_stage ["*"] true true true [w7rec] [("3", "c.csv")]
        = ([w7rec], [("3", "c.csv")]) :=
  ⟨by decide, c7_wildcard_short_circuit ["*"] true true true [w7rec] [("3", "c.csv")] (by decide)⟩

/-- Claim C8.  A part's filename enters the attachment list only when its
suffix is a case-sensitive exact member of the allow-list or that list holds
`'*'`; under the wildcard, every disposition-marked, named, non-container part
qualifies regardless of extension; and concretely `report.CSV` is excluded by
`[".csv"]` but included by `["*"]`. -/
theorem c8_attachment_extension_filtering :
    (∀ (allow : List String) (emailId : String) (parts : List MsgPart) (fs : FS) (fn : String),
        fn ∈ (collect_attachments allow emailId parts fs).1 →
          pathSuffix fn ∈ allow ∨ "*" ∈ allow)
    ∧ (∀ (allow : List String) (emailId : String) (parts : List MsgPart) (fs : FS)
        (p : MsgPart) (fn : String), "*" ∈ allow → p ∈ parts → p.maintype ≠ "multipart" →
          p.disposition.isSome = true → p.filename = some fn → fn ≠ "" →
            fn ∈ (collect_attachments allow emailId parts fs).1)
    ∧ pathSuffix "report.CSV" = ".CSV"
    ∧ (collect_attachments [".csv"] "1" [c8part] []).1 = []
    ∧ (collect_attachments ["*"] "1" [c8part] []).1 = ["report.CSV"] := by
  refine ⟨?_, ?_, rfl, rfl, rfl⟩
  · intro allow emailId parts fs fn hmem
    rw [collect_attachments_fst] at hmem
    rcases List.mem_filterMap.mp hmem with ⟨p, hp, hpfn⟩
    rcases List.mem_filter.mp hp with ⟨_, hpok⟩
    exact part_ok_suffix allow p fn hpfn hpok
  · intro allow emailId parts fs p fn hwild hp hmt hdis hfn hne
    rw [collect_attachments_fst]
    exact List.mem_filterMap.mpr
      ⟨p, List.mem_filter.mpr ⟨hp, part_ok_of_wildcard allow p fn hwild hmt hdis hfn hne⟩, hfn⟩

/-- Witness for C8 at a concrete input: membership of `report.CSV` in the
wildcard collection yields the extension disjunction. -/
theorem c8_attachment_extension_filtering_witness :
    pathSuffix "report.CSV" ∈ (["*"] : List String) ∨ "*" ∈ (["*"] : List String) :=
  c8_attachment_extension_filtering.1 ["*"] "1" [c8part] [] "report.CSV" (by decide)

/-- Claim C9.  Deleting a record's downloaded files is idempotent: after one
deletion the directory is gone, a second deletion changes nothing, and on a
missing directory `rmtree` raises `FileNotFoundError` which `delete_files`
swallows, leaving the filesystem untouched instead of failing. -/
theorem c9_delete_files_idempotent (emailId : String) (fs : FS) :
    dirExists emailId (delete_files emailId fs) = false
    ∧ delete_files emailId (delete_files emailId fs) = delete_files emailId fs
    ∧ (dirExists emailId fs = false →
        rmtree emailId fs = .error "FileNotFoundError" ∧ delete_files emailId fs = fs) := by
  refine ⟨?_, ?_, ?_⟩
  · rw [delete_files_eq_filter]; exact dirExists_filter_self emailId fs
  · rw [delete_files_eq_filter emailId fs, delete_files_eq_filter, List.filter_filter]
    refine List.filter_congr ?_
    intro f hf
    simp
  · intro h
    constructor
    · unfold rmtree; rw [if_neg (by simp [h])]
    · unfold delete_files rmtree; rw [if_neg (by simp [h])]

/-- Witness for C9 on a never-created directory: deletion does not raise and
returns the state unchanged. -/
theorem c9_delete_files_idempotent_witness :
    dirExists "9" ([("7", "doc.pdf")] : FS) = false
    ∧ (rmtree "9" ([("7", "doc.pdf")] : FS) = .error "FileNotFoundError"
      ∧ delete_files "9" ([("7", "doc.pdf")] : FS) = ([("7", "doc.pdf")] : FS)) :=
  ⟨by decide, (c9_delete_files_idempotent "9" [("7", "doc.pdf")]).2.2 (by decide)⟩

/-- Claim C10, counterexample.  The claim quantifies over every keyword set;
with the keyword `"("` (and an empty sender list) the overall filter has two
opening and one closing parenthesis, not the claimed equal counts. -/
theorem c10_counterexample_paren_keyword :
    build_overall_criteria ["("] true false none none [] = .ok "( BODY \"(\")"
    ∧ countChar '(' "( BODY \"(\")" = 2
    ∧ countChar ')' "( BODY \"(\")" = 1 :=
  ⟨rfl, rfl, rfl⟩

/-- Claim C10 as amended: for every NON-EMPTY keyword set with at least one
target enabled, whose keywords and senders contain no parenthesis characters,
and every date range, the overall filter has exactly one more opening than
closing parenthesis when the sender list is non-empty, and equal counts when
it is empty. -/
theorem c10_overall_criteria_paren_excess (keywords sender_list : List String)
    (b s : Bool) (sd ed : Option PyDate)
    (hne : keywords ≠ []) (ht : (b || s) = true)
    (hkws : ∀ k ∈ keywords, countChar '(' k = 0 ∧ countChar ')' k = 0)
    (hsnd : ∀ x ∈ sender_list, countChar '(' x = 0 ∧ countChar ')' x = 0) :
    ∃ r, build_overall_criteria keywords b s sd ed sender_list = .ok r
      ∧ countChar '(' r = countChar ')' r + (if sender_list.isEmpty then 0 else 1) := by
  have hok : (build_keyword_criteria keywords b s).isOk = true := by
    rw [build_keyword_criteria_isOk]
    simp [ht, hne]
  obtain ⟨w, hw⟩ : ∃ w, build_keyword_criteria keywords b s = .ok w := by
    cases h : build_keyword_criteria keywords b s with
    | ok v => exact ⟨v, rfl⟩
    | error e => rw [h] at hok; simp [Except.isOk, Except.toBool] at hok
  have hwbal := build_keyword_criteria_ok_shape keywords b s w hw hkws
  have hdo : countChar '(' (build_date_criteria sd ed) = 0 :=
    countChar_build_date '(' (Or.inl rfl) sd ed
  have hdc : countChar ')' (build_date_criteria sd ed) = 0 :=
    countChar_build_date ')' (Or.inr rfl) sd ed
  have hsb := build_sender_criteria_balanced sender_list hsnd
  unfold build_overall_criteria
  rw [hw]
  dsimp only
  cases hemp : sender_list.isEmpty with
  | true =>
    rw [if_pos (show (build_sender_criteria sender_list == "") = true from by
      rw [build_sender_criteria_empty_iff]; exact hemp)]
    refine ⟨_, rfl, ?_⟩
    rw [show (if (true = true) then 0 else 1) = 0 from rfl]
    simp only [countChar_append]
    rw [hdo, hdc, hwbal]
    have e1 : countChar '(' "(" = 1 := by decide
    have e2 : countChar ')' "(" = 0 := by decide
    have e3 : countChar '(' " " = 0 := by decide
    have e4 : countChar ')' " " = 0 := by decide
    have e5 : countChar '(' ")" = 0 := by decide
    have e6 : countChar ')' ")" = 1 := by decide
    rw [e1, e2, e3, e4, e5, e6]
    omega
  | false =>
    rw [if_neg (show ¬ (build_sender_criteria sender_list == "") = true from by
      rw [build_sender_criteria_empty_iff, hemp]; simp)]
    refine ⟨_, rfl, ?_⟩
    rw [show (if (false = true) then 0 else 1) = 1 from rfl]
    simp only [countChar_append]
    rw [hdo, hdc, hwbal, hsb]
    have e1 : countChar '(' "(" = 1 := by decide
    have e2 : countChar ')' "(" = 0 := by decide
    have e3 : countChar '(' " " = 0 := by decide
    have e4 : countChar ')' " " = 0 := by decide
    rw [e1, e2, e3, e4]
    omega

/-- Witness for C10 as amended, at a concrete input with one keyword and one
sender. -/
theorem c10_overall_criteria_paren_excess_witness :
    ((["inv"] : List String) ≠ [] ∧ ((true || false) = true)
      ∧ (∀ k ∈ (["inv"] : List String), countChar '(' k = 0 ∧ countChar ')' k = 0)
      ∧ (∀ x ∈ (["a@b.c"] : List String), countChar '(' x = 0 ∧ countChar ')' x = 0))
    ∧ ∃ r, build_overall_criteria ["inv"] true false none none ["a@b.c"] = .ok r
        ∧ countChar '(' r = countChar ')' r
            + (if (["a@b.c"] : List String).isEmpty then 0 else 1) :=
  ⟨⟨by decide, by decide, by decide, by decide⟩,
    c10_overall_criteria_paren_excess ["inv"] ["a@b.c"] true false none none
      (by decide) (by decide) (by decide) (by decide)⟩

end Ratekit
